import Mathlib

set_option maxRecDepth 100000

/-!
Verification of the Whale-Observer service (src/src/main.rs) against its
specification.  The Rust program listens to Uniswap V3 `Swap` logs, takes
the absolute value of the signed `amount1` leg, compares it against a
20-ETH threshold, rate-limits alerts to one per second, and dispatches a
MarkdownV2-formatted Telegram message.

Shallow embedding conventions:
* `int256` values are modelled as `Int` (range side conditions are stated
  as hypotheses where they matter); `u128` values as `Nat`.
* `tokio::time::Instant` timestamps are modelled as `Int` in nanoseconds;
  `Duration` values as `Nat` in nanoseconds.  Tokio's
  `Instant::elapsed` saturates to zero when the instant lies in the
  future, which `Int.toNat` reproduces.
* A Rust panic is modelled as `Option.none`: a function that can panic
  returns `Option _`, and `none` means the panic unwinds.
-/

namespace WhaleObserver

/-- Embeds `WHALE_THRESHOLD_WEI: u128 = 20 * 1_000_000_000_000_000_000`
(main.rs line 32). -/
def WHALE_THRESHOLD_WEI : Nat := 20 * 1000000000000000000

/-- Embeds `MIN_ALERT_INTERVAL = Duration::from_secs(1)` (main.rs line 35),
in nanoseconds. -/
def MIN_ALERT_INTERVAL : Nat := 1000000000

/-- Embeds `fn get_abs_wei(value: &I256) -> u128` (main.rs lines 202-212).
The Rust code takes `wrapping_neg` of negative values, reinterprets the
two's-complement bits as `U256` via `into_raw`, and converts with
`U256::to::<u128>()`, which PANICS when the value does not fit in `u128`
(ruint's `to` is the checked conversion).  For `value` in the int256 range
`[-2^255, 2^255)` the raw `U256` produced is exactly `(-value).toNat` when
negative (including `I256::MIN`, whose `wrapping_neg` is itself with bit
pattern `2^255 = (-value).toNat`) and `value.toNat` otherwise.  `none`
models the panic of `to::<u128>`. -/
def get_abs_wei (value : Int) : Option Nat :=
  let raw : Nat := if value < 0 then (-value).toNat else value.toNat
  if raw < 2 ^ 128 then some raw else none

/-- Embeds the direction choice of main.rs lines 151-155:
`if swap.amount1.is_negative() { ("🟢", "BOUGHT") } else { ("🔴", "SOLD") }`.
`I256::is_negative` is true exactly when the value is `< 0`. -/
def direction (amount1 : Int) : String × String :=
  if amount1 < 0 then ("🟢", "BOUGHT") else ("🔴", "SOLD")

/-- Embeds the whale test of main.rs line 134:
`abs_amount1 >= WHALE_THRESHOLD_WEI` (both `u128`). -/
def isWhale (absAmount1 : Nat) : Bool :=
  WHALE_THRESHOLD_WEI ≤ absAmount1

/-- Embeds `last_time.elapsed()` for a tokio `Instant`: the duration from
`lastSent` to `now`, saturating to zero when `lastSent` is in the future. -/
def elapsed (lastSent now : Int) : Nat :=
  (now - lastSent).toNat

/-- Embeds the rate-limiter critical section of main.rs lines 142-145 /
177-179: if `last_time.elapsed() >= MIN_ALERT_INTERVAL` set
`*last_time = Instant::now()` and grant permission, else deny and leave the
timestamp untouched.  Returns (granted?, new timestamp). -/
def tryAcquire (lastSent now : Int) : Bool × Int :=
  if MIN_ALERT_INTERVAL ≤ elapsed lastSent now then (true, now)
  else (false, lastSent)

/-- Embeds the initialisation of main.rs line 63:
`Instant::now() - MIN_ALERT_INTERVAL`. -/
def initLastAlert (now0 : Int) : Int :=
  now0 - (MIN_ALERT_INTERVAL : Int)

/-- The decoded `Swap` event of the `sol!` block (main.rs lines 18-29):
signed `amount0`/`amount1`, unsigned `sqrtPriceX96`/`liquidity`, signed
`tick`.  Only `amount1` is interpreted by the core. -/
structure Swap where
  amount0 : Int
  amount1 : Int
  sqrtPriceX96 : Nat
  liquidity : Nat
  tick : Int
deriving DecidableEq, Repr

/-- A raw subscription log record as the listener sees it:
`log.transaction_hash` is optional, and `log.log_decode::<Swap>()` either
yields a decoded `Swap` or fails.  The alloy decoder is an external
collaborator, so its outcome is carried as data on the record. -/
structure RawLog where
  transaction_hash : Option String
  decodeResult : Option Swap
deriving DecidableEq, Repr

/-- Embeds main.rs lines 113-116: the transaction id string is the
formatted hash, or "unknown" when the record has none. -/
def txIdOf (log : RawLog) : String :=
  match log.transaction_hash with
  | some h => h
  | none => "unknown"

/-- Left-pads the fractional part to four digits, as `{:.4}` does. -/
def pad4 (n : Nat) : String :=
  if n < 10 then "000" ++ toString n
  else if n < 100 then "00" ++ toString n
  else if n < 1000 then "0" ++ toString n
  else toString n

/-- Embeds `format!("{:.4}", abs_amount1 as f64 / 1e18)` (main.rs lines
132 and 158) by exact rational arithmetic: the wei amount divided by
`10^18`, rounded to four decimal places with ties to even, rendered with a
four-digit fractional part.  This coincides with the Rust `f64`
computation whenever `wei / 10^18` is exactly representable in binary64
(in particular for every multiple of `10^18` below `2^53 * 10^14`, which
covers all concrete inputs used below); IEEE-754 division is correctly
rounded and `{:.4}` rounds the stored value half-to-even. -/
def formatEth4 (wei : Nat) : String :=
  let q := wei / 10 ^ 14
  let r := wei % 10 ^ 14
  let rounded :=
    if 5 * 10 ^ 13 < r then q + 1
    else if r < 5 * 10 ^ 13 then q
    else if q % 2 = 1 then q + 1 else q
  toString (rounded / 10000) ++ "." ++ pad4 (rounded % 10000)

/-- Embeds `.replace('.', "\\.")` (main.rs line 158) at the character
level: every '.' becomes a backslash followed by '.'. -/
def escapeDots : List Char → List Char
  | [] => []
  | c :: cs => if c = '.' then '\\' :: '.' :: escapeDots cs else c :: escapeDots cs

/-- String form of `escapeDots`. -/
def escapeDotsStr (s : String) : String :=
  String.mk (escapeDots s.data)

/-- Embeds the `format!` of main.rs lines 160-164 building the Telegram
message (the `\\!` in the Rust literal is a literal backslash before the
exclamation mark, for MarkdownV2). -/
def alertMessage (emoji action ethStr txHash : String) : String :=
  emoji ++ " *WHALE " ++ action ++ " \\!* " ++ emoji ++
    "\n\n💰 Amount: *" ++ ethStr ++ " ETH*\n🔗 [View on Etherscan](https://etherscan.io/tx/" ++
    txHash ++ ")"

/-- Does `pat` occur at the start of `l`? -/
def startsWithPat : List Char → List Char → Bool
  | [], _ => true
  | _ :: _, [] => false
  | p :: ps, c :: cs => p = c && startsWithPat ps cs

/-- Does `pat` occur anywhere inside `l`? -/
def listHasSub (pat : List Char) : List Char → Bool
  | [] => startsWithPat pat []
  | c :: cs => startsWithPat pat (c :: cs) || listHasSub pat cs

/-- Substring test on strings (used to state the end-to-end message
properties). -/
def hasSubstr (s pat : String) : Bool :=
  listHasSub pat.data s.data

/-- One iteration of the `while let Some(log) = stream.next()` body
(main.rs lines 112-183), given the clock reading `now` and the
rate-limiter state `lastAlert`.  Result: `none` models a panic
(`get_abs_wei` on an amount outside `u128`); otherwise
`(new lastAlert, dispatched messages, decode-failure warnings)` where a
warning is recorded as the transaction id the `warn!` line carries. -/
def processLog (now lastAlert : Int) (log : RawLog) :
    Option (Int × List String × List String) :=
  match log.decodeResult with
  | none => some (lastAlert, [], [txIdOf log])
  | some swap =>
    match get_abs_wei swap.amount1 with
    | none => none
    | some absA =>
      if WHALE_THRESHOLD_WEI ≤ absA then
        if MIN_ALERT_INTERVAL ≤ elapsed lastAlert now then
          let d := direction swap.amount1
          let ethStr := escapeDotsStr (formatEth4 absA)
          let msg := alertMessage d.1 d.2 ethStr (txIdOf log)
          some (now, [msg], [])
        else
          some (lastAlert, [], [])
      else
        some (lastAlert, [], [])

/-- Runs the subscription loop over a finite prefix of the stream; each
record arrives with its clock reading.  Accumulates dispatched messages
and decode warnings; `none` models a panic aborting the process. -/
def runStream (lastAlert : Int) :
    List (Int × RawLog) → Option (Int × List String × List String)
  | [] => some (lastAlert, [], [])
  | (now, log) :: rest =>
    match processLog now lastAlert log with
    | none => none
    | some (st, ds, ws) =>
      match runStream st rest with
      | none => none
      | some (stF, dsR, wsR) => some (stF, ds ++ dsR, ws ++ wsR)

/-- The three required configuration values (main.rs lines 48-55). -/
structure Config where
  wss_url : String
  bot_token : String
  chat_id : Int
deriving DecidableEq, Repr

/-- One decimal digit of a `char`, as Rust's integer parser accepts it. -/
def digitVal (c : Char) : Option Nat :=
  if '0' ≤ c ∧ c ≤ '9' then some (c.toNat - '0'.toNat) else none

/-- Accumulates decimal digits; fails on any non-digit character. -/
def parseDigitsAux : List Char → Nat → Option Nat
  | [], acc => some acc
  | c :: cs, acc =>
    match digitVal c with
    | none => none
    | some d => parseDigitsAux cs (acc * 10 + d)

/-- A non-empty all-digit run, as a natural number. -/
def parseNat : List Char → Option Nat
  | [] => none
  | c :: cs => parseDigitsAux (c :: cs) 0

/-- Embeds `str::parse::<i64>()`: an optional sign followed by at least
one decimal digit, rejecting any other character and any value outside
`[-2^63, 2^63)`. -/
def parse_i64 (s : String) : Option Int :=
  match s.data with
  | [] => none
  | '+' :: rest =>
    (parseNat rest).bind fun n => if n ≤ 2 ^ 63 - 1 then some (n : Int) else none
  | '-' :: rest =>
    (parseNat rest).bind fun n => if n ≤ 2 ^ 63 then some (-(n : Int)) else none
  | l =>
    (parseNat l).bind fun n => if n ≤ 2 ^ 63 - 1 then some (n : Int) else none

/-- Embeds the startup sequence of main.rs lines 48-55: each of the three
environment variables is read with `.expect(...)` (panic when absent) and
the chat id is parsed with `.parse::<i64>().expect(...)` (panic when not a
valid integer).  `none` models the fatal startup panic. -/
def loadConfig (wssUrl botToken chatIdStr : Option String) : Option Config :=
  match wssUrl with
  | none => none
  | some u =>
    match botToken with
    | none => none
    | some t =>
      match chatIdStr with
      | none => none
      | some s =>
        match parse_i64 s with
        | none => none
        | some n => some ⟨u, t, n⟩

/-- The synthetic end-to-end record of the spec: monitored amount
`-21 * 10^18` (a whale purchase of 21 ETH). -/
def buySwap : Swap := ⟨0, -(21 * 10 ^ 18), 0, 0, 0⟩

/-- The synthetic record carrying `buySwap`, with transaction id "0xabc". -/
def buyLog : RawLog := ⟨some "0xabc", some buySwap⟩

/-- The message the pipeline dispatches for `buyLog`: note the MarkdownV2
escape, the amount reads `21\.0000`. -/
def buyMsg : String :=
  "🟢 *WHALE BOUGHT \\!* 🟢\n\n💰 Amount: *21\\.0000 ETH*\n🔗 [View on Etherscan](https://etherscan.io/tx/0xabc)"

/-- A synthetic whale sale: monitored amount `+25 * 10^18`. -/
def sellSwap : Swap := ⟨0, 25 * 10 ^ 18, 0, 0, 0⟩

/-- The synthetic record carrying `sellSwap`, with transaction id "0xfeed". -/
def sellLog : RawLog := ⟨some "0xfeed", some sellSwap⟩

/-- The message the pipeline dispatches for `sellLog`. -/
def sellMsg : String :=
  "🔴 *WHALE SOLD \\!* 🔴\n\n💰 Amount: *25\\.0000 ETH*\n🔗 [View on Etherscan](https://etherscan.io/tx/0xfeed)"

end WhaleObserver

namespace WhaleObserver

/-! ## Helper lemmas -/

/-- `get_abs_wei` succeeds exactly on amounts whose absolute value fits in
`u128`, and then returns that absolute value. -/
theorem get_abs_wei_eq (v : Int) :
    get_abs_wei v = if v.natAbs < 2 ^ 128 then some v.natAbs else none := by
  unfold get_abs_wei
  have h1 : (if v < 0 then (-v).toNat else v.toNat) = v.natAbs := by
    split <;> omega
  rw [h1]

/-- Reduction of `processLog` on a record that fails to decode. -/
theorem processLog_decode_fail (now lastAlert : Int) (log : RawLog)
    (h : log.decodeResult = none) :
    processLog now lastAlert log = some (lastAlert, [], [txIdOf log]) := by
  unfold processLog
  rw [h]

/-- Reduction of `processLog` on a decoded whale that passes the rate
limiter. -/
theorem processLog_whale (now lastAlert : Int) (log : RawLog) (sw : Swap) (a : Nat)
    (hdec : log.decodeResult = some sw) (habs : get_abs_wei sw.amount1 = some a)
    (hth : WHALE_THRESHOLD_WEI ≤ a) (hel : MIN_ALERT_INTERVAL ≤ elapsed lastAlert now) :
    processLog now lastAlert log =
      some (now, [alertMessage (direction sw.amount1).1 (direction sw.amount1).2
        (escapeDotsStr (formatEth4 a)) (txIdOf log)], []) := by
  simp only [processLog, hdec, habs, if_pos hth, if_pos hel]

/-- Reduction of `processLog` on a decoded sub-threshold swap. -/
theorem processLog_small (now lastAlert : Int) (log : RawLog) (sw : Swap) (a : Nat)
    (hdec : log.decodeResult = some sw) (habs : get_abs_wei sw.amount1 = some a)
    (hth : a < WHALE_THRESHOLD_WEI) :
    processLog now lastAlert log = some (lastAlert, [], []) := by
  simp only [processLog, hdec, habs, if_neg (Nat.not_le.mpr hth)]

/-- Reduction of `processLog` on a decoded whale denied by the rate
limiter. -/
theorem processLog_limited (now lastAlert : Int) (log : RawLog) (sw : Swap) (a : Nat)
    (hdec : log.decodeResult = some sw) (habs : get_abs_wei sw.amount1 = some a)
    (hth : WHALE_THRESHOLD_WEI ≤ a) (hel : elapsed lastAlert now < MIN_ALERT_INTERVAL) :
    processLog now lastAlert log = some (lastAlert, [], []) := by
  simp only [processLog, hdec, habs, if_pos hth, if_neg (Nat.not_le.mpr hel)]

/-! ## Claim theorems -/

/-- C1: for every decoded swap event, the classification direction is
"BOUGHT" exactly when the monitored signed amount `amount1` is strictly
negative, and "SOLD" exactly when it is non-negative; in particular an
amount of exactly zero is classified as "SOLD". -/
theorem direction_bought_iff_negative (v : Int) :
    ((direction v).2 = "BOUGHT" ↔ v < 0) ∧
    ((direction v).2 = "SOLD" ↔ 0 ≤ v) ∧
    (direction 0).2 = "SOLD" := by
  unfold direction
  by_cases h : v < 0
  · rw [if_pos h]
    refine ⟨⟨fun _ => h, fun _ => rfl⟩, ⟨fun hs => ?_, fun hge => absurd h (by omega)⟩, rfl⟩
    exact absurd hs (by decide)
  · rw [if_neg h]
    refine ⟨⟨fun hs => absurd hs (by decide), fun hlt => absurd hlt h⟩,
      ⟨fun _ => by omega, fun _ => rfl⟩, rfl⟩

/-- C2: a decoded swap is classified as alert-worthy exactly when the
absolute value of the monitored amount is at least `WHALE_THRESHOLD_WEI`;
at the boundary, an absolute amount equal to the threshold is an alert and
one equal to the threshold minus one is ignored. -/
theorem whale_iff_threshold (v : Int) (a : Nat) (h : get_abs_wei v = some a) :
    (isWhale a = true ↔ WHALE_THRESHOLD_WEI ≤ v.natAbs) ∧
    isWhale WHALE_THRESHOLD_WEI = true ∧
    isWhale (WHALE_THRESHOLD_WEI - 1) = false := by
  rw [get_abs_wei_eq] at h
  have ha : a = v.natAbs := by
    by_cases hv : v.natAbs < 2 ^ 128
    · rw [if_pos hv] at h
      exact (Option.some.injEq _ _ ▸ h).symm
    · rw [if_neg hv] at h
      exact absurd h (by simp)
  subst ha
  refine ⟨?_, by decide, by decide⟩
  unfold isWhale
  exact ⟨fun hb => of_decide_eq_true hb, fun hle => decide_eq_true hle⟩

/-- Witness for C2 at the concrete boundary input `-WHALE_THRESHOLD_WEI`. -/
theorem whale_iff_threshold_witness :
    get_abs_wei (-(20 * 10 ^ 18)) = some (20 * 10 ^ 18) ∧
    ((isWhale (20 * 10 ^ 18) = true ↔ WHALE_THRESHOLD_WEI ≤ (-(20 * 10 ^ 18) : Int).natAbs) ∧
     isWhale WHALE_THRESHOLD_WEI = true ∧
     isWhale (WHALE_THRESHOLD_WEI - 1) = false) :=
  ⟨by decide, whale_iff_threshold (-(20 * 10 ^ 18)) (20 * 10 ^ 18) (by decide)⟩

/-- C3: `tryAcquire` grants permission and moves the last-sent timestamp
to `now` exactly when the elapsed time since the last-sent timestamp is at
least `MIN_ALERT_INTERVAL`, and otherwise denies without mutating the
timestamp; consequently a second acquisition at least one window after a
successful one also succeeds, and any acquisition strictly within the
window of a successful one fails. -/
theorem rate_limiter_spec (lastSent t1 t2 : Int) :
    ((tryAcquire lastSent t1).1 = true ↔ MIN_ALERT_INTERVAL ≤ elapsed lastSent t1) ∧
    ((tryAcquire lastSent t1).1 = true → (tryAcquire lastSent t1).2 = t1) ∧
    ((tryAcquire lastSent t1).1 = false → (tryAcquire lastSent t1).2 = lastSent) ∧
    ((tryAcquire lastSent t1).1 = true → (MIN_ALERT_INTERVAL : Int) ≤ t2 - t1 →
      (tryAcquire (tryAcquire lastSent t1).2 t2).1 = true) ∧
    ((tryAcquire lastSent t1).1 = true → t2 - t1 < (MIN_ALERT_INTERVAL : Int) →
      (tryAcquire (tryAcquire lastSent t1).2 t2).1 = false) := by
  unfold tryAcquire elapsed
  by_cases hc : MIN_ALERT_INTERVAL ≤ (t1 - lastSent).toNat
  · rw [if_pos hc]
    refine ⟨⟨fun _ => hc, fun _ => rfl⟩, fun _ => rfl, fun hf => Bool.noConfusion hf, ?_, ?_⟩
    · intro _ hsep
      rw [if_pos ?_]
      have : (MIN_ALERT_INTERVAL : Int) ≤ t2 - t1 := hsep
      unfold MIN_ALERT_INTERVAL at this ⊢
      omega
    · intro _ hsep
      rw [if_neg ?_]
      have : t2 - t1 < (MIN_ALERT_INTERVAL : Int) := hsep
      unfold MIN_ALERT_INTERVAL at this ⊢
      omega
  · rw [if_neg hc]
    exact ⟨⟨fun ht => Bool.noConfusion ht, fun hle => absurd hle hc⟩,
      fun ht => Bool.noConfusion ht, fun _ => rfl,
      fun ht => Bool.noConfusion ht, fun ht => Bool.noConfusion ht⟩

/-- Witness for C3: concrete acquisitions at times 0-based, showing a
grant, a grant one full window later, and a denial half a window later. -/
theorem rate_limiter_spec_witness :
    (tryAcquire 0 (10 ^ 9)).1 = true ∧
    (tryAcquire (tryAcquire 0 (10 ^ 9)).2 (2 * 10 ^ 9)).1 = true ∧
    (tryAcquire (tryAcquire 0 (10 ^ 9)).2 (15 * 10 ^ 8)).1 = false := by
  have h := rate_limiter_spec 0 (10 ^ 9) (2 * 10 ^ 9)
  have h2 := rate_limiter_spec 0 (10 ^ 9) (15 * 10 ^ 8)
  exact ⟨h.1.mpr (by decide),
    h.2.2.2.1 (h.1.mpr (by decide)) (by decide),
    h2.2.2.2.2 (h2.1.mpr (by decide)) (by decide)⟩

/-- C4: the claim says no error arising inside the processing pipeline
propagates out of `run()` for ANY int256 `amount1`.  The code violates
this: `get_abs_wei` converts with `U256::to::<u128>()`, which panics
whenever the absolute amount does not fit in `u128`; the panic unwinds
past the reconnection loop (which only catches `Err` results) and aborts
the process.  This theorem evaluates the embedded code at the failing
input `amount1 = 2^128`. -/
theorem pipeline_panics_on_large_amount :
    get_abs_wei (2 ^ 128) = none ∧
    processLog 0 0 ⟨some "0xdead", some ⟨0, 2 ^ 128, 0, 0, 0⟩⟩ = none := by
  exact ⟨by decide, by decide⟩

/-- C6 counterexample: processing the synthetic record with monitored
amount `-21 * 10^18` (threshold `20 * 10^18`, window elapsed) dispatches
exactly one message; it contains "BOUGHT" but does NOT contain the
substring "21.0000", because MarkdownV2 escaping turns the decimal point
into `\.`. -/
theorem buy_message_counterexample :
    processLog (10 ^ 9) 0 buyLog = some (10 ^ 9, [buyMsg], []) ∧
    hasSubstr buyMsg "BOUGHT" = true ∧
    hasSubstr buyMsg "21.0000" = false := by
  exact ⟨by decide, by decide, by decide⟩

/-- C6 (amended): processing the synthetic record with monitored amount
`-21 * 10^18` against threshold `20 * 10^18`, with the rate-limit window
elapsed, produces exactly one dispatched message, and that message
contains the substring "BOUGHT" and the MarkdownV2-escaped amount
substring "21\.0000". -/
theorem buy_message_amended (now lastAlert : Int)
    (h : MIN_ALERT_INTERVAL ≤ elapsed lastAlert now) :
    processLog now lastAlert buyLog = some (now, [buyMsg], []) ∧
    hasSubstr buyMsg "BOUGHT" = true ∧
    hasSubstr buyMsg "21\\.0000" = true := by
  refine ⟨?_, by decide, by decide⟩
  have hp := processLog_whale now lastAlert buyLog buySwap (21 * 10 ^ 18)
    rfl (by decide) (by decide) h
  rw [hp]
  rfl

/-- Witness for C6 (amended) at a concrete clock. -/
theorem buy_message_amended_witness :
    MIN_ALERT_INTERVAL ≤ elapsed 0 (7 * 10 ^ 9) ∧
    (processLog (7 * 10 ^ 9) 0 buyLog = some (7 * 10 ^ 9, [buyMsg], []) ∧
     hasSubstr buyMsg "BOUGHT" = true ∧
     hasSubstr buyMsg "21\\.0000" = true) :=
  ⟨by decide, buy_message_amended (7 * 10 ^ 9) 0 (by decide)⟩

/-- C7: a record that fails to decode is logged as a warning carrying the
record's transaction identifier (which is "unknown" when the record has no
hash), leaves the rate-limiter state unchanged, dispatches nothing, and
the stream continues with the remaining records exactly as it would have
without the bad record. -/
theorem decode_failure_skipped (now lastAlert : Int) (log : RawLog)
    (rest : List (Int × RawLog)) (h : log.decodeResult = none) :
    processLog now lastAlert log = some (lastAlert, [], [txIdOf log]) ∧
    (log.transaction_hash = none → txIdOf log = "unknown") ∧
    runStream lastAlert ((now, log) :: rest) =
      (runStream lastAlert rest).map (fun r => (r.1, r.2.1, txIdOf log :: r.2.2)) := by
  refine ⟨processLog_decode_fail now lastAlert log h, ?_, ?_⟩
  · intro h2
    unfold txIdOf
    rw [h2]
  · simp only [runStream, processLog_decode_fail now lastAlert log h]
    cases hr : runStream lastAlert rest with
    | none => rfl
    | some r =>
      obtain ⟨st, ds, ws⟩ := r
      rfl

/-- Witness for C7 on a concrete hashless undecodable record. -/
theorem decode_failure_skipped_witness :
    (⟨none, none⟩ : RawLog).decodeResult = none ∧
    (processLog 0 0 ⟨none, none⟩ = some (0, [], [txIdOf ⟨none, none⟩]) ∧
     ((⟨none, none⟩ : RawLog).transaction_hash = none → txIdOf ⟨none, none⟩ = "unknown") ∧
     runStream 0 [(0, ⟨none, none⟩)] =
       (runStream 0 []).map (fun r => (r.1, r.2.1, txIdOf ⟨none, none⟩ :: r.2.2))) :=
  ⟨rfl, decode_failure_skipped 0 0 ⟨none, none⟩ [] rfl⟩

/-- C8: the rate limiter starts with the window already elapsed
(`Instant::now() - MIN_ALERT_INTERVAL`), so at any time at or after
startup the gate opens, and the first alert-worthy decoded event is always
dispatched. -/
theorem first_event_always_alerts (now0 now : Int) (log : RawLog) (sw : Swap) (a : Nat)
    (h0 : now0 ≤ now) (hdec : log.decodeResult = some sw)
    (habs : get_abs_wei sw.amount1 = some a) (hth : WHALE_THRESHOLD_WEI ≤ a) :
    MIN_ALERT_INTERVAL ≤ elapsed (initLastAlert now0) now ∧
    (tryAcquire (initLastAlert now0) now).1 = true ∧
    processLog now (initLastAlert now0) log =
      some (now, [alertMessage (direction sw.amount1).1 (direction sw.amount1).2
        (escapeDotsStr (formatEth4 a)) (txIdOf log)], []) := by
  have hel : MIN_ALERT_INTERVAL ≤ elapsed (initLastAlert now0) now := by
    unfold elapsed initLastAlert MIN_ALERT_INTERVAL
    omega
  refine ⟨hel, ?_, processLog_whale now (initLastAlert now0) log sw a hdec habs hth hel⟩
  unfold tryAcquire
  rw [if_pos hel]

/-- Witness for C8: the sale record arriving at the very instant of
startup is dispatched. -/
theorem first_event_always_alerts_witness :
    (5 : Int) ≤ 5 ∧
    (MIN_ALERT_INTERVAL ≤ elapsed (initLastAlert 5) 5 ∧
     (tryAcquire (initLastAlert 5) 5).1 = true ∧
     processLog 5 (initLastAlert 5) sellLog =
       some (5, [alertMessage (direction sellSwap.amount1).1 (direction sellSwap.amount1).2
         (escapeDotsStr (formatEth4 (25 * 10 ^ 18))) (txIdOf sellLog)], [])) :=
  ⟨le_refl 5, first_event_always_alerts 5 5 sellLog sellSwap (25 * 10 ^ 18)
    (le_refl 5) rfl (by decide) (by decide)⟩

/-- C9: startup succeeds exactly when the streaming endpoint URL is
present, the messaging credential is present, and the destination
identifier is present and parses as a valid i64; otherwise the startup
panics (`none`) before the service runs. -/
theorem config_required_iff (a b c : Option String) :
    (loadConfig a b c).isSome = (a.isSome && b.isSome && (c.bind parse_i64).isSome) := by
  cases a with
  | none => rfl
  | some u =>
    cases b with
    | none => rfl
    | some t =>
      cases c with
      | none => rfl
      | some s =>
        cases hp : parse_i64 s with
        | none => simp [loadConfig, hp]
        | some n => simp [loadConfig, hp]

/-- C10: the rate limiter's last-sent timestamp changes only when a
decoded, alert-worthy event passes the gate; whenever a processing step
changes the timestamp, the record decoded, its absolute amount met the
threshold, the window had elapsed, the new timestamp is the current time,
and a message was dispatched.  (Contrapositively: decode failures,
sub-threshold swaps, and gate-denied whales leave the timestamp
unchanged.) -/
theorem rate_state_frame (now lastAlert : Int) (log : RawLog)
    (st : Int) (ds ws : List String)
    (h : processLog now lastAlert log = some (st, ds, ws)) (hne : st ≠ lastAlert) :
    ∃ sw a, log.decodeResult = some sw ∧ get_abs_wei sw.amount1 = some a ∧
      WHALE_THRESHOLD_WEI ≤ a ∧ MIN_ALERT_INTERVAL ≤ elapsed lastAlert now ∧
      st = now ∧ ds ≠ [] := by
  cases hdec : log.decodeResult with
  | none =>
    rw [processLog_decode_fail now lastAlert log hdec] at h
    simp only [Option.some.injEq, Prod.mk.injEq] at h
    exact absurd h.1.symm hne
  | some sw =>
    cases habs : get_abs_wei sw.amount1 with
    | none =>
      have hnone : processLog now lastAlert log = none := by
        simp only [processLog, hdec, habs]
      rw [hnone] at h
      exact Option.noConfusion h
    | some a =>
      by_cases hth : WHALE_THRESHOLD_WEI ≤ a
      · by_cases hel : MIN_ALERT_INTERVAL ≤ elapsed lastAlert now
        · rw [processLog_whale now lastAlert log sw a hdec habs hth hel] at h
          simp only [Option.some.injEq, Prod.mk.injEq] at h
          refine ⟨sw, a, rfl, habs, hth, hel, h.1.symm, ?_⟩
          rw [← h.2.1]
          simp
        · rw [processLog_limited now lastAlert log sw a hdec habs hth
            (Nat.not_le.mp hel)] at h
          simp only [Option.some.injEq, Prod.mk.injEq] at h
          exact absurd h.1.symm hne
      · rw [processLog_small now lastAlert log sw a hdec habs
          (Nat.not_le.mp hth)] at h
        simp only [Option.some.injEq, Prod.mk.injEq] at h
        exact absurd h.1.symm hne

/-- Witness for C10: a whale that changes the timestamp exhibits all five
conditions. -/
theorem rate_state_frame_witness :
    ∃ sw a, sellLog.decodeResult = some sw ∧ get_abs_wei sw.amount1 = some a ∧
      WHALE_THRESHOLD_WEI ≤ a ∧ MIN_ALERT_INTERVAL ≤ elapsed 0 (2 * 10 ^ 9) ∧
      (2 * 10 ^ 9 : Int) = 2 * 10 ^ 9 ∧ ([sellMsg] : List String) ≠ [] :=
  rate_state_frame (2 * 10 ^ 9) 0 sellLog (2 * 10 ^ 9) [sellMsg] []
    (by decide) (by decide)

end WhaleObserver
